import Mathlib

/-!
Verification development for the LingoLens client orchestration core.

The definitions below are a shallow embedding of the TypeScript source:
the data model of `src/types.ts`, the AI-gateway operations of the
service module (`analyzeContent`, `generateMnemonicImage`,
`generateTextToSpeech`, `generateDailyLesson`), the history/save/toggle
state transitions of `src/App.tsx`, the image-generation caller of
`AnalysisCard`, and the PCM audio decoder and playback lifecycle of
`src/components/StoryGenerator.tsx`.  External effects (the provider's
network responses, `JSON.parse`, `Math.random`, `Date.now`) are passed
in as explicit oracle arguments, so every definition is executable.
-/

deriving instance DecidableEq for Except

/-! ### Data model (src/types.ts) -/

/-- `WordBreakdown` of src/types.ts. -/
structure WordBreakdown where
  word : String
  partOfSpeech : String
  ipa : String
  definition : String
  etymology : String
deriving DecidableEq, Repr

/-- `LearningAnalysis` of src/types.ts. -/
structure LearningAnalysis where
  originalText : String
  translation : String
  breakdown : List WordBreakdown
  examples : List String
  visualAidPrompt : String
  grammarNotes : String
deriving DecidableEq, Repr

/-- `HistoryItem` of src/types.ts; `generatedImageUrl` is optional. -/
structure HistoryItem where
  id : String
  timestamp : Nat
  data : LearningAnalysis
  isFavorite : Bool
  generatedImageUrl : Option String := none
deriving DecidableEq, Repr

/-- `UserLevel` of src/types.ts (six CEFR tiers). -/
inductive UserLevel where
  | A1 | A2 | B1 | B2 | C1 | C2
deriving DecidableEq, Repr

/-- `LessonItemType` of src/types.ts: the tagged-union discriminant. -/
inductive LessonItemType where
  | sentence
  | vocabulary
deriving DecidableEq, Repr

/-- `DailyLessonItem` of src/types.ts.  `correctOptionIndex` is a JS
number constrained to INTEGER by the response schema, embedded as `Int`. -/
structure DailyLessonItem where
  id : String
  type : LessonItemType
  content : String
  translation : String
  grammarFocus : Option String := none
  keyWords : Option (List WordBreakdown) := none
  definition : Option String := none
  options : Option (List String) := none
  correctOptionIndex : Option Int := none
  contextSentence : Option String := none
deriving DecidableEq, Repr

/-- `ContentPart.inlineData` of src/types.ts. -/
structure InlineData where
  mimeType : String
  data : String
deriving DecidableEq, Repr

/-- `ContentPart` of src/types.ts: a provider content part. -/
structure ContentPart where
  text : Option String := none
  inlineData : Option InlineData := none
deriving DecidableEq, Repr

/-- The `content` object of a provider response candidate
(`response.candidates[i].content`): carries the parts array. -/
structure CandidateContent where
  parts : List ContentPart
deriving DecidableEq, Repr

/-- One entry of `response.candidates`; `content` may be absent
(optional chaining `candidate?.content` in the source). -/
structure Candidate where
  content : Option CandidateContent := none
deriving DecidableEq, Repr

/-! ### Audio decoder (src/components/StoryGenerator.tsx, playFromBase64)

`playFromBase64` base64-decodes into a `Uint8Array`, reinterprets the
byte buffer as an `Int16Array` (little-endian pairs), and fills a mono
24 kHz buffer with `dataInt16[i] / 32768.0`.  A 16-bit sample divided
by 32768 is exactly representable in the `Float32Array` channel data,
so the samples are embedded as exact rationals. -/

/-- Reinterpret a little-endian byte pair as a signed 16-bit integer,
as the `Int16Array` view over the decoded byte buffer does. -/
def int16OfLE (b0 b1 : Fin 256) : Int :=
  let u : Nat := b0.val + 256 * b1.val
  if u < 32768 then (u : Int) else (u : Int) - 65536

/-- The normalized channel data written by `playFromBase64`:
each consecutive byte pair becomes `int16 / 32768`.  (For an
odd-length buffer the `Int16Array` view covers `⌊len/2⌋` samples;
the model drops the trailing byte accordingly.) -/
def pcmToSamples : List (Fin 256) → List ℚ
  | b0 :: b1 :: rest => ((int16OfLE b0 b1 : ℚ) / 32768) :: pcmToSamples rest
  | _ => []

theorem pcmToSamples_cons (b0 b1 : Fin 256) (rest : List (Fin 256)) :
    pcmToSamples (b0 :: b1 :: rest) =
      ((int16OfLE b0 b1 : ℚ) / 32768) :: pcmToSamples rest := rfl

theorem pcmToSamples_length_cons (b0 b1 : Fin 256) (rest : List (Fin 256)) :
    (pcmToSamples (b0 :: b1 :: rest)).length = (pcmToSamples rest).length + 1 := rfl

/-- Length of the decoded sample list: half the byte length, rounded down. -/
theorem pcmToSamples_length : ∀ bytes : List (Fin 256),
    (pcmToSamples bytes).length = bytes.length / 2
  | [] => rfl
  | [_] => by simp [pcmToSamples]
  | b0 :: b1 :: rest => by
      rw [pcmToSamples_length_cons, pcmToSamples_length rest]
      have h : (b0 :: b1 :: rest).length = rest.length + 2 := by simp
      rw [h]
      omega

/-- Pointwise description of the decoded samples via `get?`. -/
theorem pcmToSamples_get? : ∀ (bytes : List (Fin 256)) (i : Nat),
    (pcmToSamples bytes).get? i =
      match bytes.get? (2 * i), bytes.get? (2 * i + 1) with
      | some b0, some b1 => some ((int16OfLE b0 b1 : ℚ) / 32768)
      | _, _ => none
  | [], i => by cases i <;> rfl
  | [b], i => by
      cases i with
      | zero => rfl
      | succ j =>
          have h2 : 2 * (j + 1) = 2 * j + 1 + 1 := by omega
          rw [h2]
          rfl
  | b0 :: b1 :: rest, i => by
      cases i with
      | zero => rfl
      | succ j =>
          rw [pcmToSamples_cons]
          have h2 : 2 * (j + 1) = 2 * j + 1 + 1 := by omega
          rw [h2]
          simpa using pcmToSamples_get? rest j

/-! ### Injectivity of the decimal rendering used for history ids

`App.tsx` derives every `HistoryItem.id` as `Date.now().toString()`.
In the embedding this is `Nat.repr` of the clock reading; to relate
id uniqueness to timestamp distinctness we prove `Nat.repr` injective
via a digit-value round trip over `Nat.toDigitsCore`. -/

/-- Decimal value of a digit character produced by `Nat.digitChar`. -/
def digitVal (c : Char) : Nat := c.toNat - 48

/-- Value of a digit-character list read most-significant-first,
starting from accumulator `a`. -/
def digitsValFrom (a : Nat) (cs : List Char) : Nat :=
  cs.foldl (fun acc c => 10 * acc + digitVal c) a

theorem digitsValFrom_nil (a : Nat) : digitsValFrom a [] = a := rfl

theorem digitsValFrom_cons (a : Nat) (c : Char) (cs : List Char) :
    digitsValFrom a (c :: cs) = digitsValFrom (10 * a + digitVal c) cs := rfl

theorem digitVal_digitChar {d : Nat} (h : d < 10) :
    digitVal (Nat.digitChar d) = d := by
  interval_cases d <;> rfl

/-- `Nat.toDigitsCore` prepends the decimal digits of `n`, so folding the
digit values from `0` over its output continues the fold from `n`. -/
theorem digitsValFrom_toDigitsCore :
    ∀ (fuel n : Nat) (ds : List Char), n ≤ fuel →
      digitsValFrom 0 (Nat.toDigitsCore 10 (fuel + 1) n ds) = digitsValFrom n ds := by
  intro fuel
  induction fuel with
  | zero =>
      intro n ds hn
      interval_cases n
      show digitsValFrom 0 (Nat.toDigitsCore 10 1 0 ds) = digitsValFrom 0 ds
      rfl
  | succ f ih =>
      intro n ds hn
      show digitsValFrom 0 (Nat.toDigitsCore 10 (f + 1 + 1) n ds) = digitsValFrom n ds
      rw [Nat.toDigitsCore]
      by_cases hz : n / 10 = 0
      · rw [if_pos hz]
        have hlt : n < 10 := by omega
        rw [digitsValFrom_cons, digitVal_digitChar (Nat.mod_lt n (by omega))]
        have : 10 * 0 + n % 10 = n := by omega
        rw [this]
      · rw [if_neg hz]
        have hrec : n / 10 ≤ f := by
          have h1 : n / 10 < n := Nat.div_lt_self (by omega) (by omega)
          omega
        rw [ih (n / 10) (Nat.digitChar (n % 10) :: ds) hrec]
        rw [digitsValFrom_cons, digitVal_digitChar (Nat.mod_lt n (by omega))]
        have : 10 * (n / 10) + n % 10 = n := by omega
        rw [this]

/-- Round trip: the digit value of `Nat.toDigits 10 n` is `n`. -/
theorem digitsValFrom_toDigits (n : Nat) :
    digitsValFrom 0 (Nat.toDigits 10 n) = n := by
  have h := digitsValFrom_toDigitsCore n n [] (Nat.le_refl n)
  rw [Nat.toDigits]
  rw [h, digitsValFrom_nil]

/-- The decimal rendering `Nat.repr` (the model of JavaScript
`Number.prototype.toString` on a timestamp) is injective. -/
theorem natRepr_injective : Function.Injective Nat.repr := by
  intro m n h
  have hm := digitsValFrom_toDigits m
  have hn := digitsValFrom_toDigits n
  have hdig : Nat.toDigits 10 m = Nat.toDigits 10 n := by
    have : (Nat.toDigits 10 m).asString = (Nat.toDigits 10 n).asString := h
    have hdata := congrArg String.data this
    simpa [List.asString] using hdata
  rw [← hm, ← hn, hdig]

/-! ### AI gateway (the geminiService module, src/unnamed/part_000)

The provider round trip is an external effect.  Each operation reads
one accessor of the SDK response object:

* `analyzeContent`, `generateStoryFromWords` and `generateDailyLesson`
  read `response.text` — modelled by `ProviderTextResponse`;
* `generateMnemonicImage` and `generateTextToSpeech` walk
  `response.candidates` — modelled by `ProviderCandidatesResponse`.

`JSON.parse` of the schema-constrained payload is an oracle
`String → Option _` (`none` = the parse throws). -/

/-- Outcome of a provider call whose caller reads `response.text`:
either the call throws (transport/provider failure), or it returns a
response whose `text` accessor yields `none` (absent) or a string. -/
inductive ProviderTextResponse where
  | failure
  | success (text : Option String)
deriving DecidableEq, Repr

/-- Outcome of a provider call whose caller reads `response.candidates`;
the candidates array itself may be absent (optional chaining). -/
inductive ProviderCandidatesResponse where
  | failure
  | success (candidates : Option (List Candidate))
deriving DecidableEq, Repr

/-- The error taxonomy of the gateway (spec §7): `invalidInput` is the
`throw new Error("No input provided")` of `analyzeContent`‚
`emptyResponse` the `"Empty response from AI"` throw, `parseError` a
`JSON.parse` throw, `providerError` a transport/provider throw. -/
inductive GatewayError where
  | invalidInput
  | emptyResponse
  | parseError
  | providerError
deriving DecidableEq, Repr

/-- JavaScript truthiness of a `string | null` value: `null`, and the
empty string, are falsy. -/
def isTruthy : Option String → Bool
  | none => false
  | some s => !s.isEmpty

/-- The input-dependent part of the `parts` array built by
`analyzeContent` (part_000 lines 49–63): image branch first, then the
text branch, else the `"No input provided"` throw.  (The leading prompt
part is input-independent and omitted.) -/
def analyzeContentParts (text imageBase64 : Option String) :
    Except GatewayError (List ContentPart) :=
  if isTruthy imageBase64 then
    Except.ok
      [{ inlineData := some { mimeType := "image/jpeg", data := imageBase64.getD "" } },
       { text := some "Extract the text from this image and analyze it." }]
  else if isTruthy text then
    Except.ok [{ text := some ("Analyze this text: \"" ++ text.getD "" ++ "\"") }]
  else
    Except.error GatewayError.invalidInput

/-- The `try` block of `analyzeContent` (part_000 lines 94–111): a
thrown provider error is rethrown, `!resultText` (absent or empty)
throws `"Empty response from AI"`, and the result is `JSON.parse`d (a
parse throw is rethrown). -/
def analyzeNetOutcome (net : ProviderTextResponse)
    (parse : String → Option LearningAnalysis) : Except GatewayError LearningAnalysis :=
  match net with
  | ProviderTextResponse.failure => Except.error GatewayError.providerError
  | ProviderTextResponse.success none => Except.error GatewayError.emptyResponse
  | ProviderTextResponse.success (some t) =>
    if t.isEmpty then Except.error GatewayError.emptyResponse
    else
      match parse t with
      | none => Except.error GatewayError.parseError
      | some a => Except.ok a

/-- `analyzeContent` (part_000 lines 16–112).  The first component
records whether `ai.models.generateContent` was reached: the
input-validation throw happens before the `try` block that makes the
network call. -/
def analyzeContent (text imageBase64 : Option String)
    (net : ProviderTextResponse) (parse : String → Option LearningAnalysis) :
    Bool × Except GatewayError LearningAnalysis :=
  match analyzeContentParts text imageBase64 with
  | Except.error e => (false, Except.error e)
  | Except.ok _parts => (true, analyzeNetOutcome net parse)

/-- `response.candidates?.[0]?.content?.parts || []` as read by
`generateMnemonicImage` (part_000 line 132). -/
def partsOfFirstCandidate (candidates : Option (List Candidate)) : List ContentPart :=
  match candidates with
  | none => []
  | some cs =>
    match cs.head? with
    | none => []
    | some c =>
      match c.content with
      | none => []
      | some content => content.parts

/-- The `for`-loop of `generateMnemonicImage`: return a data URI for
the first part carrying `inlineData`, else fall through to `""`. -/
def scanForInlineImage : List ContentPart → String
  | [] => ""
  | p :: rest =>
    match p.inlineData with
    | some d => "data:" ++ d.mimeType ++ ";base64," ++ d.data
    | none => scanForInlineImage rest

/-- `generateMnemonicImage` (part_000 lines 118–144): best-effort — a
provider throw is caught and becomes `""`, and a response with no
inline image data also yields `""`.  Total (never throws). -/
def generateMnemonicImage (_prompt : String) (net : ProviderCandidatesResponse) : String :=
  match net with
  | ProviderCandidatesResponse.failure => ""
  | ProviderCandidatesResponse.success candidates =>
      scanForInlineImage (partsOfFirstCandidate candidates)

/-- `generateTextToSpeech` (part_000 lines 237–258): reads
`response.candidates?.[0]?.content?.parts?.[0]?.inlineData?.data` and
returns `base64Audio || null`, so an absent chain link, an empty data
string, or a caught provider throw all yield `none`.  Total. -/
def generateTextToSpeech (_text : String) (net : ProviderCandidatesResponse) :
    Option String :=
  match net with
  | ProviderCandidatesResponse.failure => none
  | ProviderCandidatesResponse.success candidates =>
    match candidates with
    | none => none
    | some cs =>
      match cs.head? with
      | none => none
      | some c =>
        match c.content with
        | none => none
        | some content =>
          match content.parts.head? with
          | none => none
          | some p =>
            match p.inlineData with
            | none => none
            | some d => if d.data.isEmpty then none else some d.data

/-- The id post-processing of `generateDailyLesson` (part_000 lines
349–352): `parsed.map(item => ({...item, id: Math.random().toString(36).substr(2, 9)}))`.
`gen i` is the string the random generator produced at the i-th map
step; every parsed item's id is overwritten with it. -/
def assignIds (gen : Nat → String) : Nat → List DailyLessonItem → List DailyLessonItem
  | _, [] => []
  | i, item :: rest => { item with id := gen i } :: assignIds gen (i + 1) rest

/-- `generateDailyLesson` (part_000 lines 263–358).  `level`, `count`,
`previousTopics.slice(0, 10)` and `systemLanguage` are interpolated
into the prompt only; the returned value is the `JSON.parse`d provider
array with every id overwritten by `assignIds`.  `!resultText` throws
`"Empty response for daily lesson"`; parse and provider throws are
rethrown. -/
def generateDailyLesson (_level : UserLevel) (_count : Nat)
    (_previousTopics : List String) (_systemLanguage : String)
    (net : ProviderTextResponse) (parse : String → Option (List DailyLessonItem))
    (gen : Nat → String) : Except GatewayError (List DailyLessonItem) :=
  match net with
  | ProviderTextResponse.failure => Except.error GatewayError.providerError
  | ProviderTextResponse.success none => Except.error GatewayError.emptyResponse
  | ProviderTextResponse.success (some t) =>
    if t.isEmpty then Except.error GatewayError.emptyResponse
    else
      match parse t with
      | none => Except.error GatewayError.parseError
      | some parsed => Except.ok (assignIds gen 0 parsed)

/-- Bounds check on a lesson item: whenever both `correctOptionIndex`
and `options` are present, the index falls inside the options list.
(The source never computes this; it is the property under test.) -/
def optionIndexInBounds (item : DailyLessonItem) : Bool :=
  match item.correctOptionIndex, item.options with
  | some idx, some opts => decide (0 ≤ idx ∧ idx < (opts.length : Int))
  | _, _ => true

theorem assignIds_length (gen : Nat → String) :
    ∀ (k : Nat) (l : List DailyLessonItem), (assignIds gen k l).length = l.length
  | _, [] => rfl
  | k, _ :: rest => by
      show (assignIds gen (k + 1) rest).length + 1 = rest.length + 1
      rw [assignIds_length gen (k + 1) rest]

theorem assignIds_get? (gen : Nat → String) :
    ∀ (k : Nat) (l : List DailyLessonItem) (i : Nat),
      (assignIds gen k l).get? i =
        (l.get? i).map (fun item => { item with id := gen (k + i) })
  | _, [], i => by cases i <;> rfl
  | k, item :: rest, 0 => rfl
  | k, item :: rest, i + 1 => by
      show (assignIds gen (k + 1) rest).get? i =
        (rest.get? i).map (fun item => { item with id := gen (k + (i + 1)) })
      rw [assignIds_get? gen (k + 1) rest i]
      have h : k + 1 + i = k + (i + 1) := by omega
      rw [h]

/-! ### Application state controller (src/App.tsx)

The pieces of component state the claims touch: the `history` list and
the quick-view modal item.  `Date.now()` is passed in as the clock
reading `now`; `Date.now().toString()` is `Nat.repr now`. -/

/-- The slice of `App` component state addressed by the claims. -/
structure AppState where
  history : List HistoryItem
  quickViewItem : Option HistoryItem
deriving DecidableEq, Repr

/-- The initial state: empty history, no quick-view modal. -/
def emptyAppState : AppState := { history := [], quickViewItem := none }

/-- The `HistoryItem` literal built by the three save sites of
`App.tsx`: `id: Date.now().toString()`, `timestamp: Date.now()`, no
cached image. -/
def mkHistoryItem (now : Nat) (data : LearningAnalysis) (fav : Bool) : HistoryItem :=
  { id := Nat.repr now, timestamp := now, data := data, isFavorite := fav,
    generatedImageUrl := none }

/-- Success continuation of `handleAnalyze` (App.tsx lines 104–111):
prepend a non-favorite item to the history. -/
def handleAnalyzeSuccess (now : Nat) (result : LearningAnalysis) (st : AppState) : AppState :=
  { st with history := mkHistoryItem now result false :: st.history }

/-- Success continuation of `handleQuickLookup` (App.tsx lines
142–150): prepend a non-favorite item and open it in the quick-view
modal. -/
def handleQuickLookupSuccess (now : Nat) (result : LearningAnalysis) (st : AppState) : AppState :=
  let newItem := mkHistoryItem now result false
  { history := newItem :: st.history, quickViewItem := some newItem }

/-- `handleSaveDailyItem` (App.tsx lines 160–168): prepend an
auto-favorited item ("Auto favorite saved items from daily"). -/
def handleSaveDailyItem (now : Nat) (analysisData : LearningAnalysis) (st : AppState) : AppState :=
  { st with history := mkHistoryItem now analysisData true :: st.history }

/-- `toggleFavorite` (App.tsx lines 170–178): flip `isFavorite` on every
history entry with the given id, and patch the open quick-view copy of
the same id, if any. -/
def toggleFavorite (id : String) (st : AppState) : AppState :=
  { history := st.history.map fun item =>
      if item.id = id then { item with isFavorite := !item.isFavorite } else item,
    quickViewItem :=
      match st.quickViewItem with
      | some q =>
          if q.id = id then some { q with isFavorite := !q.isFavorite } else some q
      | none => none }

/-- `updateGeneratedImage` (App.tsx lines 180–188): set the cached image
URL on every history entry with the given id, and patch the open
quick-view copy of the same id, if any. -/
def updateGeneratedImage (id url : String) (st : AppState) : AppState :=
  { history := st.history.map fun item =>
      if item.id = id then { item with generatedImageUrl := some url } else item,
    quickViewItem :=
      match st.quickViewItem with
      | some q =>
          if q.id = id then some { q with generatedImageUrl := some url } else some q
      | none => none }

/-- `handleGenerateImage` of `AnalysisCard` (part_001 lines 25–36):
return unchanged when an image is already cached; otherwise call
`generateMnemonicImage` and apply the update only when the result is a
truthy (non-empty) string. -/
def handleGenerateImage (item : HistoryItem) (net : ProviderCandidatesResponse)
    (st : AppState) : AppState :=
  if item.generatedImageUrl.isSome then st
  else
    let url := generateMnemonicImage item.data.visualAidPrompt net
    if url.isEmpty then st else updateGeneratedImage item.id url st

/-- One "save" operation on the history list: the three flavors the
spec names (main analysis, quick lookup, daily-study save), each
carrying its clock reading and analysis payload. -/
inductive SaveOp where
  | analyze (now : Nat) (result : LearningAnalysis)
  | quickLookup (now : Nat) (result : LearningAnalysis)
  | dailySave (now : Nat) (data : LearningAnalysis)
deriving DecidableEq, Repr

/-- The clock reading a save operation observed. -/
def SaveOp.clock : SaveOp → Nat
  | SaveOp.analyze now _ => now
  | SaveOp.quickLookup now _ => now
  | SaveOp.dailySave now _ => now

/-- The `HistoryItem` a save operation prepends. -/
def SaveOp.item : SaveOp → HistoryItem
  | SaveOp.analyze now result => mkHistoryItem now result false
  | SaveOp.quickLookup now result => mkHistoryItem now result false
  | SaveOp.dailySave now data => mkHistoryItem now data true

/-- Dispatch a save operation to its `App.tsx` handler. -/
def applySaveOp (op : SaveOp) (st : AppState) : AppState :=
  match op with
  | SaveOp.analyze now result => handleAnalyzeSuccess now result st
  | SaveOp.quickLookup now result => handleQuickLookupSuccess now result st
  | SaveOp.dailySave now data => handleSaveDailyItem now data st

/-- Run a sequence of save operations left to right (oldest first). -/
def runSaves (ops : List SaveOp) (st : AppState) : AppState :=
  ops.foldl (fun s op => applySaveOp op s) st

theorem applySaveOp_history (op : SaveOp) (st : AppState) :
    (applySaveOp op st).history = op.item :: st.history := by
  cases op <;> rfl

/-- The history after a run of saves: the saved items, newest first,
on top of the initial history. -/
theorem runSaves_history : ∀ (ops : List SaveOp) (st : AppState),
    (runSaves ops st).history = (ops.map SaveOp.item).reverse ++ st.history
  | [], st => rfl
  | op :: ops, st => by
      show (runSaves ops (applySaveOp op st)).history = _
      rw [runSaves_history ops (applySaveOp op st), applySaveOp_history]
      simp

/-! ### Audio playback lifecycle (src/components/StoryGenerator.tsx)

`sourceNodeRef` holds at most one `AudioBufferSourceNode`; `active`
tracks the sources that have been started and have neither been
explicitly stopped nor ended naturally (i.e. the ones audibly
playing); `nextId` numbers freshly created sources. -/

/-- The playback-relevant state of `StoryGenerator`. -/
structure AudioState where
  sourceNode : Option Nat
  isPlaying : Bool
  active : List Nat
  nextId : Nat
deriving DecidableEq, Repr

/-- Component mount state: no source created, nothing playing. -/
def initialAudioState : AudioState :=
  { sourceNode := none, isPlaying := false, active := [], nextId := 0 }

/-- `playFromBase64` (StoryGenerator lines 80–126), success path: create
a fresh source, store it in `sourceNodeRef`, `source.start(0)`, set
`isPlaying`.  Note: it does not stop or clear any previous source. -/
def playFromBase64 (s : AudioState) : AudioState :=
  { sourceNode := some s.nextId, isPlaying := true,
    active := s.nextId :: s.active, nextId := s.nextId + 1 }

/-- `stopAudio` (StoryGenerator lines 128–134): if a source is stored,
`stop()` it and null the ref; always clear `isPlaying`. -/
def stopAudio (s : AudioState) : AudioState :=
  match s.sourceNode with
  | some n => { s with active := s.active.erase n, sourceNode := none, isPlaying := false }
  | none => { s with isPlaying := false }

/-- The `source.onended` callback (StoryGenerator line 116): the source
stops sounding by itself and the callback runs `setIsPlaying(false)` —
and nothing else; in particular `sourceNodeRef` keeps the ended source. -/
def onEnded (n : Nat) (s : AudioState) : AudioState :=
  { s with active := s.active.erase n, isPlaying := false }

/-- The states the component can reach.  Playback is only initiated
from the "Listen" button, which is rendered only while `isPlaying` is
false; `stopAudio` runs from the stop button, `handleGenerate` and the
unmount cleanup; `onended` fires only for a source that is playing. -/
inductive AudioReachable : AudioState → Prop
  | init : AudioReachable initialAudioState
  | play {s : AudioState} (h : AudioReachable s) (hguard : s.isPlaying = false) :
      AudioReachable (playFromBase64 s)
  | stop {s : AudioState} (h : AudioReachable s) : AudioReachable (stopAudio s)
  | ended {s : AudioState} {n : Nat} (h : AudioReachable s) (hmem : n ∈ s.active) :
      AudioReachable (onEnded n s)

/-- The inductive invariant of the playback lifecycle: when the playing
flag is down nothing is audible, and an audible source is unique and is
exactly the one stored in `sourceNodeRef`. -/
def AudioInv (s : AudioState) : Prop :=
  (s.isPlaying = false → s.active = []) ∧
  (s.active = [] ∨ ∃ n, s.active = [n] ∧ s.sourceNode = some n)

theorem audioInv_reachable {s : AudioState} (h : AudioReachable s) : AudioInv s := by
  induction h with
  | init => exact ⟨fun _ => rfl, Or.inl rfl⟩
  | play h hguard ih =>
      rename_i s
      have hempty : s.active = [] := ih.1 hguard
      constructor
      · intro hfalse
        simp [playFromBase64] at hfalse
      · refine Or.inr ⟨s.nextId, ?_, rfl⟩
        simp [playFromBase64, hempty]
  | stop h ih =>
      rename_i s
      rcases ih.2 with hempty | ⟨n, hact, hsrc⟩
      · cases hs : s.sourceNode with
        | none => exact ⟨fun _ => by simp [stopAudio, hs, hempty], Or.inl (by simp [stopAudio, hs, hempty])⟩
        | some m => exact ⟨fun _ => by simp [stopAudio, hs, hempty], Or.inl (by simp [stopAudio, hs, hempty])⟩
      · have : (stopAudio s).active = [] := by
          simp [stopAudio, hsrc, hact, List.erase]
        exact ⟨fun _ => this, Or.inl this⟩
  | ended h hmem ih =>
      rename_i s n
      rcases ih.2 with hempty | ⟨m, hact, hsrc⟩
      · rw [hempty] at hmem
        cases hmem
      · rw [hact] at hmem
        have hnm : n = m := by simpa using hmem
        subst hnm
        have : (onEnded n s).active = [] := by
          simp [onEnded, hact, List.erase]
        exact ⟨fun _ => this, Or.inl this⟩

/-! ### Concrete values used by counterexamples and witnesses -/

/-- A concrete analysis result, as `JSON.parse` would produce it. -/
def demoAnalysis : LearningAnalysis :=
  { originalText := "hello", translation := "bonjour", breakdown := [],
    examples := ["hello there"], visualAidPrompt := "a waving hand",
    grammarNotes := "an interjection of greeting" }

/-- A concrete history item (clock reading 5, so id "5"). -/
def demoItem : HistoryItem := mkHistoryItem 5 demoAnalysis false

/-- A concrete vocabulary lesson item as the provider may return it:
`correctOptionIndex` is 5 although only one option is present (the
response schema bounds neither field). -/
def demoLessonItem : DailyLessonItem :=
  { id := "", type := LessonItemType.vocabulary, content := "loquacious",
    translation := "talkative", definition := some "tending to talk a great deal",
    options := some ["talkative"], correctOptionIndex := some 5,
    contextSentence := some "He was loquacious." }

/-- A concrete vocabulary lesson item whose index is in bounds. -/
def demoLessonItem2 : DailyLessonItem :=
  { id := "", type := LessonItemType.vocabulary, content := "brisk",
    translation := "quick", definition := some "quick and energetic",
    options := some ["quick", "slow"], correctOptionIndex := some 0,
    contextSentence := some "A brisk walk." }

/-! ### Claim theorems -/

/-- C4: audio decoding — for every even-length PCM byte sequence the
produced sample list has length `bytes/2`, and sample `i` is the signed
16-bit little-endian reinterpretation of bytes `2i, 2i+1` divided by
32768. -/
theorem pcm_decode_spec (bytes : List (Fin 256)) (h : bytes.length % 2 = 0) :
    (pcmToSamples bytes).length = bytes.length / 2 ∧
    ∀ i : Nat, (pcmToSamples bytes).get? i =
      match bytes.get? (2 * i), bytes.get? (2 * i + 1) with
      | some b0, some b1 => some ((int16OfLE b0 b1 : ℚ) / 32768)
      | _, _ => none :=
  ⟨pcmToSamples_length bytes, fun i => pcmToSamples_get? bytes i⟩

/-- C4 witness: the bytes 0x34 0x12 0x00 0x80 decode to two samples,
4660/32768 and -32768/32768. -/
theorem pcm_decode_spec_witness :
    ([(52 : Fin 256), 18, 0, 128].length % 2 = 0) ∧
    (pcmToSamples [(52 : Fin 256), 18, 0, 128]).length = 2 ∧
    (pcmToSamples [(52 : Fin 256), 18, 0, 128]).get? 0 = some ((4660 : ℚ) / 32768) ∧
    (pcmToSamples [(52 : Fin 256), 18, 0, 128]).get? 1 = some ((-32768 : ℚ) / 32768) := by
  have h := pcm_decode_spec [(52 : Fin 256), 18, 0, 128] (by decide)
  refine ⟨by decide, by rw [h.1]; decide, ?_, ?_⟩
  · rw [h.2 0]
    show some ((int16OfLE 52 18 : ℚ) / 32768) = some ((4660 : ℚ) / 32768)
    rw [show int16OfLE 52 18 = 4660 from by decide]
    norm_num
  · rw [h.2 1]
    show some ((int16OfLE 0 128 : ℚ) / 32768) = some ((-32768 : ℚ) / 32768)
    rw [show int16OfLE 0 128 = -32768 from by decide]
    norm_num

/-- C1 counterexample: with both a text and an image supplied,
`analyzeContent` does not fail with InvalidInput — the image branch is
taken, the network call is reached (first component `true`) and the
call proceeds as a valid one. -/
theorem analyzeContent_both_inputs_proceeds :
    analyzeContent (some "hello") (some "imgdata")
      (ProviderTextResponse.success (some "payload"))
      (fun _ => some demoAnalysis) = (true, Except.ok demoAnalysis) := rfl

/-- C1 (amended): `analyzeContent` fails with InvalidInput — without
reaching the network call — exactly when neither input is truthy
(null/empty); whenever at least one input is supplied the network call
is reached, and when both are supplied the image takes precedence (the
text argument is ignored). -/
theorem analyzeContent_exactly_one_input (text imageBase64 : Option String)
    (net : ProviderTextResponse) (parse : String → Option LearningAnalysis) :
    ((analyzeContent text imageBase64 net parse).1 = true
      ↔ (isTruthy imageBase64 = true ∨ isTruthy text = true)) ∧
    (analyzeContent text imageBase64 net parse
        = (false, Except.error GatewayError.invalidInput)
      ↔ (isTruthy imageBase64 = false ∧ isTruthy text = false)) ∧
    (isTruthy imageBase64 = true →
      analyzeContent text imageBase64 net parse
        = analyzeContent none imageBase64 net parse) := by
  cases himg : isTruthy imageBase64 <;> cases htext : isTruthy text <;>
    cases net <;>
      simp [analyzeContent, analyzeContentParts, himg, htext]

/-- C1 witness: both inputs absent gives InvalidInput with no network
call; a lone text input reaches the network. -/
theorem analyzeContent_exactly_one_input_witness :
    (analyzeContent none none ProviderTextResponse.failure (fun _ => some demoAnalysis)
      = (false, Except.error GatewayError.invalidInput)) ∧
    (analyzeContent (some "hi") none (ProviderTextResponse.success (some "payload"))
      (fun _ => some demoAnalysis)).1 = true :=
  ⟨((analyzeContent_exactly_one_input none none ProviderTextResponse.failure
      (fun _ => some demoAnalysis)).2.1).mpr ⟨rfl, rfl⟩,
   ((analyzeContent_exactly_one_input (some "hi") none
      (ProviderTextResponse.success (some "payload"))
      (fun _ => some demoAnalysis)).1).mpr (Or.inr (by decide))⟩

/-- C10: a daily-study save creates its history item auto-favorited,
while main analysis and quick lookup create theirs non-favorited; in
each case the created item is the new head of the history list. -/
theorem save_flavor_isFavorite (now : Nat) (data : LearningAnalysis) (st : AppState) :
    (handleSaveDailyItem now data st).history.head? = some (mkHistoryItem now data true) ∧
    (handleAnalyzeSuccess now data st).history.head? = some (mkHistoryItem now data false) ∧
    (handleQuickLookupSuccess now data st).history.head? = some (mkHistoryItem now data false) ∧
    (mkHistoryItem now data true).isFavorite = true ∧
    (mkHistoryItem now data false).isFavorite = false :=
  ⟨rfl, rfl, rfl, rfl, rfl⟩

/-- C3 counterexample: two daily-study saves in the same millisecond
(`Date.now()` returns 1000 for both) produce a reachable history whose
ids are not pairwise unique. -/
theorem history_ids_collide_same_millisecond :
    ¬ ((runSaves [SaveOp.dailySave 1000 demoAnalysis, SaveOp.dailySave 1000 demoAnalysis]
        emptyAppState).history.map HistoryItem.id).Nodup := by
  decide

/-- C3 (amended): after any sequence of save operations the most
recently saved item is first in the history; and whenever the clock
readings observed by the saves are pairwise distinct, the resulting
history (from the empty state) has pairwise-unique ids — ids are
`Date.now().toString()`, so distinct clock readings are required. -/
theorem history_save_order_and_id_unique (ops : List SaveOp) (op : SaveOp)
    (st : AppState) (hclocks : (ops.map SaveOp.clock).Nodup) :
    (runSaves (ops ++ [op]) st).history = op.item :: (runSaves ops st).history ∧
    ((runSaves ops emptyAppState).history.map HistoryItem.id).Nodup := by
  constructor
  · show (List.foldl (fun s o => applySaveOp o s) st (ops ++ [op])).history = _
    rw [List.foldl_append]
    exact applySaveOp_history op (runSaves ops st)
  · rw [runSaves_history]
    show (((ops.map SaveOp.item).reverse ++ []).map HistoryItem.id).Nodup
    rw [List.append_nil, List.map_reverse, List.nodup_reverse, List.map_map]
    have hid : (HistoryItem.id ∘ SaveOp.item) = (Nat.repr ∘ SaveOp.clock) := by
      funext o
      cases o <;> rfl
    rw [hid, ← List.map_map]
    exact hclocks.map natRepr_injective

/-- C3 witness: three saves with distinct clock readings; the last one
is first and the ids are pairwise unique. -/
theorem history_save_order_and_id_unique_witness :
    ((runSaves [SaveOp.dailySave 1 demoAnalysis, SaveOp.analyze 2 demoAnalysis]
        emptyAppState).history.map HistoryItem.id).Nodup ∧
    (runSaves [SaveOp.dailySave 1 demoAnalysis, SaveOp.analyze 2 demoAnalysis,
        SaveOp.quickLookup 3 demoAnalysis] emptyAppState).history
      = (SaveOp.quickLookup 3 demoAnalysis).item ::
        (runSaves [SaveOp.dailySave 1 demoAnalysis, SaveOp.analyze 2 demoAnalysis]
          emptyAppState).history :=
  ⟨(history_save_order_and_id_unique
      [SaveOp.dailySave 1 demoAnalysis, SaveOp.analyze 2 demoAnalysis]
      (SaveOp.quickLookup 3 demoAnalysis) emptyAppState (by decide)).2,
   (history_save_order_and_id_unique
      [SaveOp.dailySave 1 demoAnalysis, SaveOp.analyze 2 demoAnalysis]
      (SaveOp.quickLookup 3 demoAnalysis) emptyAppState (by decide)).1⟩

/-- Flipping the favorite flag of matching items twice is the identity
on each history entry. -/
theorem toggleFlip_toggleFlip (id : String) (item : HistoryItem) :
    (fun it => if it.id = id then { it with isFavorite := !it.isFavorite } else it)
      ((fun it => if it.id = id then { it with isFavorite := !it.isFavorite } else it)
        item) = item := by
  by_cases h : item.id = id
  · cases item
    simp_all [Bool.not_not]
  · simp [h]

/-- C6: toggling favorite twice on the same id returns the whole state
(the list and any open quick-view copy) to its original value; a single
toggle flips exactly the matching entries of the main list, and also
flips the open quick-view copy when its id matches. -/
theorem toggleFavorite_involutive_and_dual (id : String) (st : AppState) :
    toggleFavorite id (toggleFavorite id st) = st ∧
    (∀ i : Nat, (toggleFavorite id st).history.get? i =
        (st.history.get? i).map (fun item =>
          if item.id = id then { item with isFavorite := !item.isFavorite } else item)) ∧
    (∀ q : HistoryItem, st.quickViewItem = some q → q.id = id →
        (toggleFavorite id st).quickViewItem
          = some { q with isFavorite := !q.isFavorite }) := by
  refine ⟨?_, ?_, ?_⟩
  · have hmap : ∀ l : List HistoryItem,
        (l.map fun it =>
            if it.id = id then { it with isFavorite := !it.isFavorite } else it).map
          (fun it =>
            if it.id = id then { it with isFavorite := !it.isFavorite } else it) = l := by
      intro l
      induction l with
      | nil => rfl
      | cons a t ih => simp [toggleFlip_toggleFlip id a, ih]
    cases st with
    | mk history quickViewItem =>
        cases quickViewItem with
        | none =>
            simp [toggleFavorite, hmap]
        | some q =>
            by_cases hq : q.id = id
            · cases q
              simp_all [toggleFavorite, hmap, Bool.not_not]
            · simp [toggleFavorite, hq, hmap]
  · intro i
    exact List.get?_map _ _ _
  · intro q hq hid
    simp [toggleFavorite, hq, hid]

/-- C6 witness: a state holding one history item (id "5") also open in
the quick view; double toggle restores it, single toggle flips the
quick-view copy. -/
theorem toggleFavorite_involutive_and_dual_witness :
    toggleFavorite "5" (toggleFavorite "5"
        { history := [demoItem], quickViewItem := some demoItem })
      = { history := [demoItem], quickViewItem := some demoItem } ∧
    (toggleFavorite "5" { history := [demoItem], quickViewItem := some demoItem }).quickViewItem
      = some { demoItem with isFavorite := !demoItem.isFavorite } :=
  ⟨(toggleFavorite_involutive_and_dual "5"
      { history := [demoItem], quickViewItem := some demoItem }).1,
   (toggleFavorite_involutive_and_dual "5"
      { history := [demoItem], quickViewItem := some demoItem }).2.2 demoItem rfl (by decide)⟩

/-- Scanning a parts list with no inline data falls through to "". -/
theorem scanForInlineImage_all_none : ∀ parts : List ContentPart,
    parts.all (fun p => p.inlineData.isNone) = true → scanForInlineImage parts = ""
  | [], _ => rfl
  | p :: rest, h => by
      have hall := List.all_eq_true.mp h
      have hp : p.inlineData.isNone = true := hall p (by simp)
      have hrest : rest.all (fun q => q.inlineData.isNone) = true :=
        List.all_eq_true.mpr fun q hq => hall q (by simp [hq])
      cases hpd : p.inlineData with
      | some d => rw [hpd] at hp; cases hp
      | none =>
          show scanForInlineImage (p :: rest) = ""
          rw [scanForInlineImage, hpd]
          exact scanForInlineImage_all_none rest hrest

/-- C7: mnemonic-image generation yields "" — not an exception — on a
provider throw and on a response without inline image data; in those
cases, and when an image is already cached, the caller leaves the
application state (including every cached `generatedImageUrl`) exactly
as it was. -/
theorem generateMnemonicImage_failure_empty (prompt : String) (st : AppState)
    (item : HistoryItem) (candidates : Option (List Candidate)) :
    generateMnemonicImage prompt ProviderCandidatesResponse.failure = "" ∧
    ((partsOfFirstCandidate candidates).all (fun p => p.inlineData.isNone) = true →
      generateMnemonicImage prompt (ProviderCandidatesResponse.success candidates) = "") ∧
    handleGenerateImage item ProviderCandidatesResponse.failure st = st ∧
    (∀ url, item.generatedImageUrl = some url →
      ∀ net, handleGenerateImage item net st = st) := by
  refine ⟨rfl, ?_, ?_, ?_⟩
  · intro h
    exact scanForInlineImage_all_none _ h
  · by_cases h : item.generatedImageUrl.isSome
    · simp [handleGenerateImage, h]
    · show handleGenerateImage item ProviderCandidatesResponse.failure st = st
      rw [handleGenerateImage, if_neg (by simp [h])]
      rfl
  · intro url hu net
    simp [handleGenerateImage, hu]

/-- C7 witness: provider failure yields "" and leaves a state
unchanged, also for an item with a cached image URL. -/
theorem generateMnemonicImage_failure_empty_witness :
    generateMnemonicImage "a waving hand" ProviderCandidatesResponse.failure = "" ∧
    generateMnemonicImage "a waving hand" (ProviderCandidatesResponse.success none) = "" ∧
    handleGenerateImage demoItem ProviderCandidatesResponse.failure
      { history := [demoItem], quickViewItem := none }
      = { history := [demoItem], quickViewItem := none } ∧
    handleGenerateImage { demoItem with generatedImageUrl := some "data:image/png;base64,AA" }
      ProviderCandidatesResponse.failure emptyAppState = emptyAppState :=
  ⟨(generateMnemonicImage_failure_empty "a waving hand" emptyAppState demoItem none).1,
   (generateMnemonicImage_failure_empty "a waving hand" emptyAppState demoItem none).2.1 rfl,
   (generateMnemonicImage_failure_empty "a waving hand"
      { history := [demoItem], quickViewItem := none } demoItem none).2.2.1,
   (generateMnemonicImage_failure_empty "a waving hand" emptyAppState
      { demoItem with generatedImageUrl := some "data:image/png;base64,AA" } none).2.2.2
     "data:image/png;base64,AA" rfl ProviderCandidatesResponse.failure⟩

/-- C9: text-to-speech is total (never throws) and returns null on a
provider throw, on every absent link of the optional chain
`candidates?.[0]?.content?.parts?.[0]?.inlineData?.data`, and — via
`base64Audio || null` — on empty inline data; non-empty inline data of
the first part is returned as is. -/
theorem generateTextToSpeech_failure_none (text : String) (rest : List Candidate)
    (parts : List ContentPart) (d : InlineData) :
    generateTextToSpeech text ProviderCandidatesResponse.failure = none ∧
    generateTextToSpeech text (ProviderCandidatesResponse.success none) = none ∧
    generateTextToSpeech text (ProviderCandidatesResponse.success (some [])) = none ∧
    generateTextToSpeech text
      (ProviderCandidatesResponse.success (some ({ content := none } :: rest))) = none ∧
    generateTextToSpeech text
      (ProviderCandidatesResponse.success
        (some ({ content := some { parts := [] } } :: rest))) = none ∧
    generateTextToSpeech text
      (ProviderCandidatesResponse.success
        (some ({ content := some ({ parts :=
          (({ text := some "x", inlineData := none } : ContentPart) :: parts) }) } :: rest)))
      = none ∧
    (d.data.isEmpty = true →
      generateTextToSpeech text
        (ProviderCandidatesResponse.success
          (some ({ content := some ({ parts := (({ inlineData := some d } : ContentPart) :: parts) }) } :: rest)))
        = none) ∧
    (d.data.isEmpty = false →
      generateTextToSpeech text
        (ProviderCandidatesResponse.success
          (some ({ content := some ({ parts := (({ inlineData := some d } : ContentPart) :: parts) }) } :: rest)))
        = some d.data) := by
  refine ⟨rfl, rfl, rfl, rfl, rfl, rfl, ?_, ?_⟩ <;>
    intro h <;> simp [generateTextToSpeech, h]

/-- C9 witness: empty inline data gives null, non-empty is returned. -/
theorem generateTextToSpeech_failure_none_witness :
    generateTextToSpeech "hi"
      (ProviderCandidatesResponse.success
        (some [{ content := some ({ parts :=
          [{ inlineData := some { mimeType := "audio/pcm", data := "" } }] }) }]))
      = none ∧
    generateTextToSpeech "hi"
      (ProviderCandidatesResponse.success
        (some [{ content := some ({ parts :=
          [{ inlineData := some { mimeType := "audio/pcm", data := "QUJD" } }] }) }]))
      = some "QUJD" :=
  ⟨(generateTextToSpeech_failure_none "hi" [] [] { mimeType := "audio/pcm", data := "" }).2.2.2.2.2.2.1
      (by decide),
   (generateTextToSpeech_failure_none "hi" [] [] { mimeType := "audio/pcm", data := "QUJD" }).2.2.2.2.2.2.2
      (by decide)⟩

/-- C2 counterexample: with count = 5 requested while the provider's
parsed array holds a single item, `generateDailyLesson` returns one
item, not five — the requested count is never enforced on the parsed
array. -/
theorem generateDailyLesson_count_not_enforced :
    Except.map List.length
      (generateDailyLesson UserLevel.B1 5 [] "Chinese"
        (ProviderTextResponse.success (some "payload"))
        (fun _ => some [demoLessonItem]) (fun _ => "k3j9q2x7a"))
      = Except.ok 1 ∧ (1 : Nat) ≠ 5 := by
  exact ⟨rfl, by decide⟩

/-- C2 (amended): on a successful round trip `generateDailyLesson`
returns exactly as many items as the provider's parsed array contains
(the requested count only flavors the prompt); item i equals parsed
item i with its id overwritten by the i-th client-generated id, so ids
are non-empty whenever the generator yields non-empty strings, and
every item is tagged as exactly one of sentence/vocabulary. -/
theorem generateDailyLesson_shape (level : UserLevel) (count : Nat)
    (previousTopics : List String) (systemLanguage : String)
    (t : String) (parsed : List DailyLessonItem)
    (parse : String → Option (List DailyLessonItem)) (gen : Nat → String)
    (hparse : parse t = some parsed) (ht : t.isEmpty = false) :
    generateDailyLesson level count previousTopics systemLanguage
      (ProviderTextResponse.success (some t)) parse gen
      = Except.ok (assignIds gen 0 parsed) ∧
    (assignIds gen 0 parsed).length = parsed.length ∧
    (∀ i : Nat, (assignIds gen 0 parsed).get? i =
      (parsed.get? i).map (fun item => { item with id := gen i })) ∧
    ((∀ i : Nat, (gen i).isEmpty = false) →
      ∀ item ∈ assignIds gen 0 parsed, item.id.isEmpty = false) ∧
    (∀ item ∈ assignIds gen 0 parsed,
      item.type = LessonItemType.sentence ∨ item.type = LessonItemType.vocabulary) := by
  refine ⟨?_, assignIds_length gen 0 parsed, ?_, ?_, ?_⟩
  · simp [generateDailyLesson, ht, hparse]
  · intro i
    simpa using assignIds_get? gen 0 parsed i
  · intro hgen item hmem
    obtain ⟨i, hi⟩ := List.mem_iff_get?.mp hmem
    rw [assignIds_get? gen 0 parsed i] at hi
    obtain ⟨item0, _, hitem⟩ := Option.map_eq_some'.mp hi
    have : item.id = gen (0 + i) := by rw [← hitem]
    rw [this]
    exact hgen (0 + i)
  · intro item _
    cases h : item.type
    · exact Or.inl rfl
    · exact Or.inr rfl

/-- C2 witness: one parsed item, generator id "k3j9q2x7a": the result
is that item with the generated id. -/
theorem generateDailyLesson_shape_witness :
    generateDailyLesson UserLevel.B1 1 [] "Chinese"
      (ProviderTextResponse.success (some "payload"))
      (fun _ => some [demoLessonItem]) (fun _ => "k3j9q2x7a")
      = Except.ok [{ demoLessonItem with id := "k3j9q2x7a" }] :=
  (generateDailyLesson_shape UserLevel.B1 1 [] "Chinese" "payload" [demoLessonItem]
    (fun _ => some [demoLessonItem]) (fun _ => "k3j9q2x7a") rfl (by decide)).1

/-- C8 counterexample: the provider's parsed array may carry
correctOptionIndex 5 beside a single-element options list, and
`generateDailyLesson` returns that item with the bound violated. -/
theorem generateDailyLesson_index_unvalidated :
    generateDailyLesson UserLevel.B1 1 [] "Chinese"
      (ProviderTextResponse.success (some "payload"))
      (fun _ => some [demoLessonItem]) (fun _ => "id1")
      = Except.ok [{ demoLessonItem with id := "id1" }] ∧
    optionIndexInBounds { demoLessonItem with id := "id1" } = false := by
  exact ⟨rfl, by decide⟩

/-- C8 (amended): `generateDailyLesson` performs no bounds validation;
it only rewrites ids, leaving `options` and `correctOptionIndex`
untouched, so every returned item has `correctOptionIndex` within the
bounds of `options` (when both are present) exactly when the
corresponding parsed provider item already does. -/
theorem generateDailyLesson_index_preserved (level : UserLevel) (count : Nat)
    (previousTopics : List String) (systemLanguage : String)
    (t : String) (parsed : List DailyLessonItem)
    (parse : String → Option (List DailyLessonItem)) (gen : Nat → String)
    (hparse : parse t = some parsed) (ht : t.isEmpty = false)
    (hbounds : ∀ item ∈ parsed, optionIndexInBounds item = true) :
    ∀ out, generateDailyLesson level count previousTopics systemLanguage
        (ProviderTextResponse.success (some t)) parse gen = Except.ok out →
      ∀ item ∈ out, optionIndexInBounds item = true := by
  intro out hout item hmem
  have hout' : out = assignIds gen 0 parsed := by
    rw [generateDailyLesson] at hout
    rw [ht] at hout
    simp only [Bool.false_eq_true, if_false, hparse] at hout
    exact (Except.ok.inj hout).symm
  subst hout'
  obtain ⟨i, hi⟩ := List.mem_iff_get?.mp hmem
  rw [assignIds_get? gen 0 parsed i] at hi
  obtain ⟨item0, hmem0, hitem⟩ := Option.map_eq_some'.mp hi
  have hb : optionIndexInBounds item0 = true :=
    hbounds item0 (List.get?_mem hmem0)
  have : optionIndexInBounds item = optionIndexInBounds item0 := by
    rw [← hitem]
    rfl
  rw [this]
  exact hb

/-- C8 witness: an in-bounds parsed item stays in bounds in the
returned lesson. -/
theorem generateDailyLesson_index_preserved_witness :
    optionIndexInBounds { demoLessonItem2 with id := "id1" } = true :=
  generateDailyLesson_index_preserved UserLevel.A1 1 [] "Chinese" "payload"
    [demoLessonItem2] (fun _ => some [demoLessonItem2]) (fun _ => "id1")
    rfl (by decide) (by decide)
    [{ demoLessonItem2 with id := "id1" }] (by decide)
    { demoLessonItem2 with id := "id1" } (by decide)

/-- C5 counterexample: `playFromBase64` does not stop an active source
— invoked while source 0 is active it leaves both sources active — and
the natural-end path does not release the stored reference: after
`onended` fires for source 0, `sourceNodeRef` still holds it. -/
theorem playback_no_stop_no_release :
    (playFromBase64 (playFromBase64 initialAudioState)).active = [1, 0] ∧
    (onEnded 0 (playFromBase64 initialAudioState)).sourceNode = some 0 ∧
    (onEnded 0 (playFromBase64 initialAudioState)).active = [] := by
  decide

/-- C5 (amended): in every reachable state at most one playback source
is active — guaranteed because playback is only started while the
playing flag is down, which implies nothing is active (not because
starting playback stops the previous source); the explicit-stop path
deactivates the active source and clears the stored reference, while
the natural-end path deactivates the source but only clears the
playing flag, leaving the reference set. -/
theorem playback_single_source (s : AudioState) (h : AudioReachable s) :
    s.active.length ≤ 1 ∧
    (s.isPlaying = false → s.active = []) ∧
    (stopAudio s).active = [] ∧
    (stopAudio s).sourceNode = none ∧
    (∀ n ∈ s.active,
      (onEnded n s).active = [] ∧ (onEnded n s).sourceNode = s.sourceNode) := by
  have inv := audioInv_reachable h
  have hstop : (stopAudio s).active = [] := by
    rcases inv.2 with hempty | ⟨n, hact, hsrc⟩
    · cases hs : s.sourceNode <;> simp [stopAudio, hs, hempty]
    · simp [stopAudio, hsrc, hact, List.erase]
  refine ⟨?_, inv.1, hstop, ?_, ?_⟩
  · rcases inv.2 with hempty | ⟨n, hact, _⟩
    · simp [hempty]
    · simp [hact]
  · cases hs : s.sourceNode <;> simp [stopAudio, hs]
  · intro n hn
    rcases inv.2 with hempty | ⟨m, hact, _⟩
    · rw [hempty] at hn
      cases hn
    · rw [hact] at hn
      have hnm : n = m := by simpa using hn
      subst hnm
      exact ⟨by simp [onEnded, hact, List.erase], rfl⟩

/-- C5 witness: the state after one guarded play is reachable; it has
one active source, and explicit stop clears the reference. -/
theorem playback_single_source_witness :
    (playFromBase64 initialAudioState).active.length ≤ 1 ∧
    (stopAudio (playFromBase64 initialAudioState)).active = [] ∧
    (stopAudio (playFromBase64 initialAudioState)).sourceNode = none :=
  ⟨(playback_single_source (playFromBase64 initialAudioState)
      (AudioReachable.play AudioReachable.init rfl)).1,
   (playback_single_source (playFromBase64 initialAudioState)
      (AudioReachable.play AudioReachable.init rfl)).2.2.1,
   (playback_single_source (playFromBase64 initialAudioState)
      (AudioReachable.play AudioReachable.init rfl)).2.2.2.1⟩
